import Mathlib

/-!
Verification of the document-standardization core of the Painel-de-Comando
repository: the classifier (`src/ai/document_analyzer.py`), the persistent
analysis queue (`src/ai/analysis_queue.py`) and the background worker
(`src/ai/background_worker.py`), shallowly embedded in Lean.

Conventions of the embedding:
* Python strings are Lean `String`s; character-level work happens on `List Char`.
* Python floats are modelled as `ℚ`; every constant appearing in the source
  (0.8, 0.6, 0.5, 0.3, ...) is exact in binary floating point or only used in
  comparisons whose outcome the proved bounds do not depend on.
* `str.lower` is modelled ASCII-wise by `Char.toLower`; all concrete inputs
  evaluated by the theorems below are ASCII, and the universally quantified
  statements (confidence bounds, template-failure fallback) do not depend on
  the case-folding of non-ASCII letters.
* The SQLite tables of `analysis_queue.py` become lists of rows kept in rowid
  order; `INSERT OR IGNORE` / `INSERT OR REPLACE` / `UPDATE ... WHERE` are
  modelled by the corresponding list operations, and `AUTOINCREMENT` by an
  explicit next-id counter.
* Wall-clock values (`CURRENT_TIMESTAMP`, `datetime.now()`) are passed in as
  explicit parameters.
-/

/-! ### Character and string helpers (Python semantics) -/

/-- Python `str.isspace` characters relevant to `\s` and `str.split()` (ASCII part). -/
def isPySpace (c : Char) : Bool :=
  c == ' ' || c == '\t' || c == '\n' || c == '\r' || c == '\x0b' || c == '\x0c'

/-- Word character for the regex `\b` boundary (ASCII part of Python `\w`). -/
def isWordChar (c : Char) : Bool :=
  c.isAlphanum || c == '_'

/-- Python `str.lower` (ASCII case folding). -/
def pyLower (s : String) : String :=
  String.mk (s.toList.map Char.toLower)

/-- Python substring test `needle in hay` on character lists. -/
def containsSub (hay needle : List Char) : Bool :=
  hay.tails.any (fun t => needle.isPrefixOf t)

/-- Python substring test `needle in hay` on strings. -/
def strContains (hay needle : String) : Bool :=
  containsSub hay.toList needle.toList

/-- Python `hay.endswith(suffix)` on character lists. -/
def chEndsWith (hay suf : List Char) : Bool :=
  suf.reverse.isPrefixOf hay.reverse

/-- Python `os.path.splitext` restricted to plain file names (no directory
separators): split at the last dot, unless every character before that dot is
itself a dot (leading dots do not start an extension). -/
def splitext (s : String) : String × String :=
  let cs := s.toList
  match cs.reverse.findIdx? (fun c => c == '.') with
  | none => (s, "")
  | some k =>
    let i := cs.length - 1 - k
    if (cs.take i).any (fun c => c != '.') then
      (String.mk (cs.take i), String.mk (cs.drop i))
    else
      (s, "")

/-- Auxiliary for `collapseUnderscoreRuns`: the flag records whether the
previous emitted character was an underscore of the current run. -/
def collapseUAux (prevU : Bool) : List Char → List Char
  | [] => []
  | c :: rest =>
    if c == '_' then
      if prevU then collapseUAux true rest
      else '_' :: collapseUAux true rest
    else c :: collapseUAux false rest

/-- Python `re.sub(r'_{2,}', '_', s)`: collapse each run of two or more
underscores into a single underscore (runs of one are left as they are,
which coincides with collapsing every run). -/
def collapseUnderscoreRuns (l : List Char) : List Char :=
  collapseUAux false l

/-- Python `s.strip('_')`. -/
def stripUnderscores (l : List Char) : List Char :=
  ((l.dropWhile (fun c => c == '_')).reverse.dropWhile (fun c => c == '_')).reverse

/-- Python `s.strip()` (whitespace strip). -/
def stripPySpaces (l : List Char) : List Char :=
  ((l.dropWhile isPySpace).reverse.dropWhile isPySpace).reverse

/-- Auxiliary for `pyWords`: split on whitespace runs, accumulating the
current word reversed. -/
def wordsAux (cur : List Char) : List Char → List String
  | [] => if cur.isEmpty then [] else [String.mk cur.reverse]
  | c :: rest =>
    if isPySpace c then
      if cur.isEmpty then wordsAux [] rest
      else String.mk cur.reverse :: wordsAux [] rest
    else wordsAux (c :: cur) rest

/-- Python `s.split()` with no argument: whitespace split, empty pieces dropped. -/
def pyWords (s : String) : List String :=
  wordsAux [] s.toList

/-! ### A small regex engine

`document_analyzer.py` matches file names against a fixed table of patterns
via `re.search(pattern, text, re.IGNORECASE)`.  The patterns only use literal
text, alternation `(a|b|...)`, the bounded gap `.{0,10}` and the unbounded gap
`.*` (plus one `\.?`, transliterated as a two-way alternation).  `Reg` covers
exactly these constructs; `.` does not match a newline, as in `re` without
`re.DOTALL`. -/

inductive Reg where
  | lit : String → Reg
  | anyUpTo : Nat → Reg
  | anyStar : Reg
  | alt : Reg → Reg → Reg
  | cat : Reg → Reg → Reg
deriving Repr

/-- Remainders after `.{0,n}` consumes between `0` and `n` non-newline characters. -/
def dropsUpTo : Nat → List Char → List (List Char)
  | _, [] => [[]]
  | 0, s => [s]
  | n + 1, c :: rest =>
    (c :: rest) :: (if c == '\n' then [] else dropsUpTo n rest)

/-- Remainders after `.*` consumes any number of non-newline characters. -/
def starDrops : List Char → List (List Char)
  | [] => [[]]
  | c :: rest => (c :: rest) :: (if c == '\n' then [] else starDrops rest)

/-- All suffixes reachable after matching `r` against a prefix of `s`. -/
def matchEnds : Reg → List Char → List (List Char)
  | .lit p, s =>
    let pl := p.toList
    if pl.isPrefixOf s then [s.drop pl.length] else []
  | .anyUpTo n, s => dropsUpTo n s
  | .anyStar, s => starDrops s
  | .alt r1 r2, s => matchEnds r1 s ++ matchEnds r2 s
  | .cat r1 r2, s => (matchEnds r1 s).flatMap (matchEnds r2)

/-- Python `re.search(r, s) is not None`: the pattern matches starting at some
position of `s`. -/
def regexSearch (r : Reg) (s : List Char) : Bool :=
  s.tails.any (fun t => !(matchEnds r t).isEmpty)


/-! ### `extract_employee_info` (document_analyzer.py, lines 340-370)

The three searches of `extract_employee_info` are transliterated as direct
left-to-right scans, which coincide with `re.search` (leftmost match) for
these patterns. -/

/-- Boundary test for `\b` before a match position: the previous character
(if any) is not a word character. -/
def boundaryBefore : Option Char → Bool
  | none => true
  | some p => !isWordChar p

/-- Boundary test for `\b` after a match: the next character (if any) is not a
word character. -/
def boundaryAfter : List Char → Bool
  | [] => true
  | c :: _ => !isWordChar c

/-- Search for `\b(20\d{2})\b` (leftmost match), returning group 1. -/
def findYearAux : Option Char → List Char → Option String
  | _, [] => none
  | prev, c0 :: rest =>
    (match rest with
     | c1 :: c2 :: c3 :: rest2 =>
       if boundaryBefore prev && c0 == '2' && c1 == '0' && c2.isDigit && c3.isDigit
          && boundaryAfter rest2 then
         some (String.mk [c0, c1, c2, c3])
       else none
     | _ => none).orElse (fun _ => findYearAux (some c0) rest)

/-- Date separator class (dash or slash) of the date patterns. -/
def isDateSep (c : Char) : Bool := c == '-' || c == '/'

/-- Search for the day-month-year date pattern `\d\d sep \d\d sep \d\d\d\d`
with dash-or-slash separators (leftmost match). -/
def findDateDMY : List Char → Option String
  | [] => none
  | c0 :: rest =>
    (match c0 :: rest with
     | a :: b :: s1 :: c :: d :: s2 :: e :: f :: g :: h :: _ =>
       if a.isDigit && b.isDigit && isDateSep s1 && c.isDigit && d.isDigit
          && isDateSep s2 && e.isDigit && f.isDigit && g.isDigit && h.isDigit then
         some (String.mk [a, b, s1, c, d, s2, e, f, g, h])
       else none
     | _ => none).orElse (fun _ => findDateDMY rest)

/-- Search for the year-first date pattern `\d\d\d\d sep \d\d sep \d\d` with
dash-or-slash separators (leftmost match). -/
def findDateYMD : List Char → Option String
  | [] => none
  | c0 :: rest =>
    (match c0 :: rest with
     | a :: b :: c :: d :: s1 :: e :: f :: s2 :: g :: h :: _ =>
       if a.isDigit && b.isDigit && c.isDigit && d.isDigit && isDateSep s1
          && e.isDigit && f.isDigit && isDateSep s2 && g.isDigit && h.isDigit then
         some (String.mk [a, b, c, d, s1, e, f, s2, g, h])
       else none
     | _ => none).orElse (fun _ => findDateYMD rest)

/-- Character class `[A-ZÁÀÂÃÉÈÊÍÏÓÔÕÖÚÇÑ]` of the employee-name pattern. -/
def upperNameClass (c : Char) : Bool :=
  ('A' ≤ c && c ≤ 'Z') || "ÁÀÂÃÉÈÊÍÏÓÔÕÖÚÇÑ".toList.contains c

/-- Character class `[a-záàâãéèêíïóôõöúçñ\s]` of the employee-name pattern. -/
def lowerNameClass (c : Char) : Bool :=
  ('a' ≤ c && c ≤ 'z') || "áàâãéèêíïóôõöúçñ".toList.contains c || isPySpace c

/-- Try to match `\s*([A-Z...][a-z...\s]+)\.` at the position right after a
`-`, returning group 1.  The greedy `+` needs no backtracking because `.` is
not in the repeated class: the run must be maximal and followed by `.`. -/
def matchNameAt (s : List Char) : Option String :=
  match s.dropWhile isPySpace with
  | [] => none
  | u :: s2 =>
    if upperNameClass u then
      let run := s2.takeWhile lowerNameClass
      if run.isEmpty then none
      else
        match s2.drop run.length with
        | '.' :: _ => some (String.mk (u :: run))
        | _ => none
    else none

/-- Search for `-\s*([A-Z...][a-z...\s]+)\.` (leftmost match), returning group 1. -/
def findNomeFunc : List Char → Option String
  | [] => none
  | '-' :: rest => (matchNameAt rest).orElse (fun _ => findNomeFunc rest)
  | _ :: rest => findNomeFunc rest

/-- Result dictionary of `extract_employee_info`; keys that the function never
sets (`periodo`, `nome_dependente`) are carried so that
`generate_standardized_name`'s `info.get(..., '')` calls can be transliterated. -/
structure EmployeeInfo where
  ano : Option String := none
  data : Option String := none
  nome_func : Option String := none
  periodo : Option String := none
  nome_dependente : Option String := none
deriving DecidableEq

/-- `DocumentAnalyzer.extract_employee_info`: pull a year, a date and an
employee name out of the original file name. -/
def extract_employee_info (filename : String) : EmployeeInfo :=
  let cs := filename.toList
  { ano := findYearAux none cs
    data := ((findDateDMY cs).orElse (fun _ => findDateYMD cs)).map
      (fun d => String.mk (d.toList.map (fun c => if c == '/' then '-' else c)))
    nome_func := (findNomeFunc cs).map (fun n => String.mk (stripPySpaces n.toList)) }

/-! ### `_clean_employee_name` (document_analyzer.py, lines 431-457) -/

/-- Words removed from the middle of a name (`prepositions` in the source). -/
def prepositions : List String := ["de", "da", "do", "dos", "das", "e"]

/-- Python `re.sub(r'^\d+\s*-\s*', '', full_name)`: strip a leading numeric
code followed by a dash. -/
def stripLeadingCode (s : String) : String :=
  let cs := s.toList
  let ds := cs.takeWhile Char.isDigit
  if ds.isEmpty then s
  else
    match (cs.drop ds.length).dropWhile isPySpace with
    | '-' :: r2 => String.mk (r2.dropWhile isPySpace)
    | _ => s

/-- `DocumentAnalyzer._clean_employee_name`: strip a leading code, drop
middle-position prepositions (first and last word always kept), cap at three
words by keeping first and last, and join with `_`. -/
def clean_employee_name (full_name : String) : String :=
  let name := stripLeadingCode full_name
  let words := pyWords name
  let filtered := words.enum.filterMap (fun iw =>
    if iw.1 == 0 || iw.1 == words.length - 1 || !(prepositions.contains (pyLower iw.2)) then
      some iw.2
    else none)
  let filtered := if filtered.length > 3 then [filtered.headD "", filtered.getLastD ""] else filtered
  String.intercalate "_" filtered


/-! ### Naming templates and `str.format` (document_analyzer.py)

Every folder schema in `DOCUMENT_SCHEMAS` carries the same template string
`'{tipo}_{nome_completo}{validade}.{ext}'` (braces delimit placeholders), here
parsed once and for all into a list of literal and placeholder pieces.
`str.format` with keyword arguments is modelled by `formatTemplate`, which
fails with the first placeholder name that is not among the supplied keys,
exactly as `format` raises `KeyError`. -/

inductive TItem where
  | lit : String → TItem
  | hole : String → TItem
deriving DecidableEq

/-- Parsed form of the template string `'{tipo}_{nome_completo}{validade}.{ext}'`
shared by all twelve folder schemas. -/
def stdTemplate : List TItem :=
  [.hole "tipo", .lit "_", .hole "nome_completo", .hole "validade", .lit ".", .hole "ext"]

/-- Python `template.format(**kwargs)`: substitute placeholders left to right,
raising (here: returning `.error`) the first placeholder name that has no
supplied value. -/
def formatTemplate (t : List TItem) (kw : List (String × String)) : Except String String :=
  t.foldlM (fun acc it =>
    match it with
    | .lit s => .ok (acc ++ s)
    | .hole k =>
      match kw.find? (fun p => p.1 == k) with
      | some p => .ok (acc ++ p.2)
      | none => .error k) ""


/-! ### `DOCUMENT_SCHEMAS` (document_analyzer.py, lines 55-164)

Each pattern entry keeps both the raw pattern source string (the literal
Python regex text, used by `identify_document_type`'s substring test
`pattern in filename_lower`) and its transliteration as a `Reg`.  Brace
characters inside the source strings are written with their escapes. -/

/-- Alternation of a list of regexes, as written `(a|b|...)` in the source. -/
def rAlt : List Reg → Reg
  | [] => .lit ""
  | [r] => r
  | r :: rest => .alt r (rAlt rest)

/-- Concatenation of a list of regexes. -/
def rCat : List Reg → Reg
  | [] => .lit ""
  | [r] => r
  | r :: rest => .cat r (rCat rest)

/-- The bounded gap `.` repeated at most ten times, `.\x7b0,10\x7d` in the source. -/
def gap10 : Reg := .anyUpTo 10

structure PatEntry where
  docType : String
  src : String
  re : Reg

structure Schema where
  patterns : List PatEntry
  template : List TItem

/-- `DocumentAnalyzer.DOCUMENT_SCHEMAS`: the folder-name-keyed pattern tables,
in source (dict-insertion) order.  Every folder carries the identical template
`stdTemplate`. -/
def DOCUMENT_SCHEMAS : List (String × Schema) := [
  ("01 - Documentos Pessoais",
   { patterns := [
       ⟨"RG", "(rg|identidade|carteira de identidade|registro geral)",
        rAlt [.lit "rg", .lit "identidade", .lit "carteira de identidade", .lit "registro geral"]⟩,
       ⟨"CPF", "(cpf|cadastro de pessoa)",
        rAlt [.lit "cpf", .lit "cadastro de pessoa"]⟩,
       ⟨"CNH", "(cnh|carteira nacional|habilitação|permissão.*dirigir)",
        rAlt [.lit "cnh", .lit "carteira nacional", .lit "habilitação",
          rCat [.lit "permissão", .anyStar, .lit "dirigir"]]⟩,
       ⟨"Titulo_Eleitor", "(título|titulo eleitor)",
        rAlt [.lit "título", .lit "titulo eleitor"]⟩,
       ⟨"Comp_Residencia", "(comprovante.\x7b0,10\x7dresidência|endereço|comprovante.\x7b0,10\x7dendereço)",
        rAlt [rCat [.lit "comprovante", gap10, .lit "residência"], .lit "endereço",
          rCat [.lit "comprovante", gap10, .lit "endereço"]]⟩,
       ⟨"Certidao_Nascimento", "(certidão.\x7b0,10\x7dnascimento|cert.*nasc)",
        rAlt [rCat [.lit "certidão", gap10, .lit "nascimento"],
          rCat [.lit "cert", .anyStar, .lit "nasc"]]⟩,
       ⟨"Certidao_Casamento", "(certidão.\x7b0,10\x7dcasamento|cert.*casam)",
        rAlt [rCat [.lit "certidão", gap10, .lit "casamento"],
          rCat [.lit "cert", .anyStar, .lit "casam"]]⟩,
       ⟨"Carteira_Trabalho", "(ctps|carteira.\x7b0,10\x7dtrabalho)",
        rAlt [.lit "ctps", rCat [.lit "carteira", gap10, .lit "trabalho"]]⟩,
       ⟨"PIS_PASEP", "(pis|pasep)", rAlt [.lit "pis", .lit "pasep"]⟩,
       ⟨"Reservista", "(reservista|certificado.\x7b0,10\x7dreservista)",
        rAlt [.lit "reservista", rCat [.lit "certificado", gap10, .lit "reservista"]]⟩],
     template := stdTemplate }),
  ("02 - Documentos Admissionais e Periódicos",
   { patterns := [
       ⟨"ASO_Admissional", "aso.\x7b0,10\x7dadmissional",
        rCat [.lit "aso", gap10, .lit "admissional"]⟩,
       ⟨"ASO_Periodico", "aso.\x7b0,10\x7dperiódico",
        rCat [.lit "aso", gap10, .lit "periódico"]⟩,
       ⟨"ASO_Demissional", "aso.\x7b0,10\x7ddemissional",
        rCat [.lit "aso", gap10, .lit "demissional"]⟩,
       ⟨"Exame_Admissional", "exame.\x7b0,10\x7dadmissional",
        rCat [.lit "exame", gap10, .lit "admissional"]⟩,
       ⟨"Exame_Periodico", "exame.\x7b0,10\x7dperiódico",
        rCat [.lit "exame", gap10, .lit "periódico"]⟩,
       ⟨"Atestado_Saude", "atestado.\x7b0,10\x7d(saúde|ocupacional)",
        rCat [.lit "atestado", gap10, rAlt [.lit "saúde", .lit "ocupacional"]]⟩,
       ⟨"Ficha_Registro", "ficha.\x7b0,10\x7dregistro",
        rCat [.lit "ficha", gap10, .lit "registro"]⟩,
       ⟨"Contrato_Trabalho", "contrato.\x7b0,10\x7dtrabalho",
        rCat [.lit "contrato", gap10, .lit "trabalho"]⟩],
     template := stdTemplate }),
  ("03 - Sinistros",
   { patterns := [
       ⟨"CAT", "(cat|comunicação.\x7b0,10\x7dacidente)",
        rAlt [.lit "cat", rCat [.lit "comunicação", gap10, .lit "acidente"]]⟩,
       ⟨"Boletim_Ocorrencia", "(b\\.?o\\.|boletim.\x7b0,10\x7docorrência)",
        rAlt [.alt (.lit "b.o.") (.lit "bo."), rCat [.lit "boletim", gap10, .lit "ocorrência"]]⟩,
       ⟨"Laudo_Pericia", "laudo.\x7b0,10\x7dperícia",
        rCat [.lit "laudo", gap10, .lit "perícia"]⟩,
       ⟨"Atestado_Medico", "atestado.\x7b0,10\x7dmédico",
        rCat [.lit "atestado", gap10, .lit "médico"]⟩],
     template := stdTemplate }),
  ("04 - Férias",
   { patterns := [
       ⟨"Aviso_Ferias", "aviso.\x7b0,10\x7dférias", rCat [.lit "aviso", gap10, .lit "férias"]⟩,
       ⟨"Recibo_Ferias", "recibo.\x7b0,10\x7dférias", rCat [.lit "recibo", gap10, .lit "férias"]⟩,
       ⟨"Concessao_Ferias", "concessão.\x7b0,10\x7dférias",
        rCat [.lit "concessão", gap10, .lit "férias"]⟩],
     template := stdTemplate }),
  ("05 - Dependentes",
   { patterns := [
       ⟨"CPF_Dependente", "cpf.\x7b0,10\x7d(filho|filha|esposa|esposo|dependente)",
        rCat [.lit "cpf", gap10,
          rAlt [.lit "filho", .lit "filha", .lit "esposa", .lit "esposo", .lit "dependente"]]⟩,
       ⟨"RG_Dependente", "rg.\x7b0,10\x7d(filho|filha|esposa|esposo|dependente)",
        rCat [.lit "rg", gap10,
          rAlt [.lit "filho", .lit "filha", .lit "esposa", .lit "esposo", .lit "dependente"]]⟩,
       ⟨"Certidao_Nascimento_Dep", "certidão.\x7b0,10\x7dnascimento.\x7b0,10\x7d(filho|filha)",
        rCat [.lit "certidão", gap10, .lit "nascimento", gap10, rAlt [.lit "filho", .lit "filha"]]⟩,
       ⟨"Certidao_Casamento", "certidão.\x7b0,10\x7dcasamento",
        rCat [.lit "certidão", gap10, .lit "casamento"]⟩,
       ⟨"Carteira_Vacinacao", "carteira.\x7b0,10\x7dvacinação",
        rCat [.lit "carteira", gap10, .lit "vacinação"]⟩],
     template := stdTemplate }),
  ("06 - Certificados",
   { patterns := [
       ⟨"Certificado_Curso", "certificado.\x7b0,10\x7d(curso|treinamento)",
        rCat [.lit "certificado", gap10, rAlt [.lit "curso", .lit "treinamento"]]⟩,
       ⟨"Diploma", "diploma", .lit "diploma"⟩,
       ⟨"Certificado_Digital", "certificado.\x7b0,10\x7ddigital",
        rCat [.lit "certificado", gap10, .lit "digital"]⟩],
     template := stdTemplate }),
  ("07 - IRPF",
   { patterns := [
       ⟨"Declaracao_IRPF", "(irpf|imposto.\x7b0,10\x7drenda|declaração.\x7b0,10\x7dimposto)",
        rAlt [.lit "irpf", rCat [.lit "imposto", gap10, .lit "renda"],
          rCat [.lit "declaração", gap10, .lit "imposto"]]⟩,
       ⟨"Informe_Rendimentos", "informe.\x7b0,10\x7drendimentos",
        rCat [.lit "informe", gap10, .lit "rendimentos"]⟩,
       ⟨"Recibo_IRPF", "recibo.\x7b0,10\x7d(irpf|imposto.\x7b0,10\x7drenda)",
        rCat [.lit "recibo", gap10, rAlt [.lit "irpf", rCat [.lit "imposto", gap10, .lit "renda"]]]⟩],
     template := stdTemplate }),
  ("08 - Multas de Trânsito",
   { patterns := [
       ⟨"Auto_Infracao", "(auto.\x7b0,10\x7dinfração|multa)",
        rAlt [rCat [.lit "auto", gap10, .lit "infração"], .lit "multa"]⟩,
       ⟨"Notificacao_Transito", "notificação.\x7b0,10\x7d(trânsito|detran)",
        rCat [.lit "notificação", gap10, rAlt [.lit "trânsito", .lit "detran"]]⟩],
     template := stdTemplate }),
  ("09 - Plano de Saúde",
   { patterns := [
       ⟨"Carteirinha_Saude", "carteirinha.\x7b0,10\x7d(saúde|plano)",
        rCat [.lit "carteirinha", gap10, rAlt [.lit "saúde", .lit "plano"]]⟩,
       ⟨"Contrato_Plano", "contrato.\x7b0,10\x7dplano",
        rCat [.lit "contrato", gap10, .lit "plano"]⟩,
       ⟨"Declaracao_Beneficiario", "declaração.\x7b0,10\x7dbeneficiário",
        rCat [.lit "declaração", gap10, .lit "beneficiário"]⟩],
     template := stdTemplate }),
  ("10 - Documentos Escaneados",
   { patterns := [
       ⟨"Scan", "(scan|digitalização|escaneado)",
        rAlt [.lit "scan", .lit "digitalização", .lit "escaneado"]⟩],
     template := stdTemplate }),
  ("11 - Acordos",
   { patterns := [
       ⟨"Acordo_Trabalhista", "acordo.\x7b0,10\x7dtrabalhista",
        rCat [.lit "acordo", gap10, .lit "trabalhista"]⟩,
       ⟨"Termo_Acordo", "termo.\x7b0,10\x7dacordo", rCat [.lit "termo", gap10, .lit "acordo"]⟩],
     template := stdTemplate }),
  ("12 - Rescisão",
   { patterns := [
       ⟨"Termo_Rescisao", "termo.\x7b0,10\x7drescisão", rCat [.lit "termo", gap10, .lit "rescisão"]⟩,
       ⟨"Aviso_Previo", "aviso.\x7b0,10\x7dprévio", rCat [.lit "aviso", gap10, .lit "prévio"]⟩,
       ⟨"Homologacao", "homologação", .lit "homologação"⟩,
       ⟨"TRCT", "(trct|termo.\x7b0,10\x7drescisão.\x7b0,10\x7dcontrato)",
        rAlt [.lit "trct", rCat [.lit "termo", gap10, .lit "rescisão", gap10, .lit "contrato"]]⟩],
     template := stdTemplate })]

/-! ### The classifier (document_analyzer.py, lines 260-338 and the
filename fallback of `analyze_folder_documents`) -/

/-- `DocumentAnalyzer.identify_document_type`: match the lowered file name
against the folder's pattern table; confidence is `0.8` when the raw pattern
text occurs literally in the file name and `0.6` otherwise; the first
best-scoring match wins. -/
def identify_document_type (filename folder_type : String) : String × ℚ :=
  match DOCUMENT_SCHEMAS.find? (fun p => p.1 == folder_type) with
  | none => ("Desconhecido", 0)
  | some sch =>
    let filename_lower := pyLower filename
    let best := sch.2.patterns.foldl (fun best p =>
      if regexSearch p.re filename_lower.toList then
        let confidence : ℚ := if strContains filename_lower p.src then mkRat 8 10 else mkRat 6 10
        if confidence > best.2 then (some p.docType, confidence) else best
      else best) ((none : Option String), (0 : ℚ))
    (best.1.getD "Desconhecido", best.2)

/-- Keyword table of `classify_document_by_content` (lines 271-283). -/
def keywords_map : List (String × List String) := [
  ("RG", ["identidade", "rg", "registro geral", "carteira de identidade", "ssp"]),
  ("CPF", ["cpf", "cadastro de pessoa física", "receita federal"]),
  ("CNH", ["cnh", "habilitação", "detran", "carteira nacional"]),
  ("ASO_Admissional", ["aso", "atestado de saúde ocupacional", "admissional", "apto para o trabalho"]),
  ("ASO_Periodico", ["aso", "periódico", "exame médico periódico"]),
  ("Certidao_Nascimento", ["certidão", "nascimento", "cartório", "nascido"]),
  ("Certidao_Casamento", ["certidão", "casamento", "cartório", "cônjuge"]),
  ("CTPS", ["carteira de trabalho", "ctps", "ministério do trabalho"]),
  ("CAT", ["cat", "comunicação de acidente", "acidente de trabalho"]),
  ("Declaracao_IRPF", ["irpf", "imposto de renda", "declaração", "receita federal"]),
  ("Informe_Rendimentos", ["informe de rendimentos", "rendimentos", "fonte pagadora"])]

/-- `DocumentAnalyzer.classify_document_by_content`: keyword scoring over the
lowered extracted text; each matched keyword contributes
`len(keyword.split()) / len(keywords)`, the sum is normalized by
`len(keywords)` and clamped at `1.0`; a best score below `0.3` yields
`Desconhecido`.  The `folder_type` argument is unused, as in the source. -/
def classify_document_by_content (text_content : String) (folder_type : String) : String × ℚ :=
  if text_content == "" || text_content.length < 50 then ("Desconhecido", 0)
  else
    let text_lower := pyLower text_content
    let best := keywords_map.foldl (fun best p =>
      let n : ℚ := (p.2.length : ℚ)
      let score := p.2.foldl (fun s keyword =>
        if strContains text_lower keyword then s + ((pyWords keyword).length : ℚ) / n else s) 0
      let score := min (score / n) 1
      if score > best.2 then (some p.1, score) else best) ((none : Option String), (0 : ℚ))
    if best.2 < mkRat 3 10 then ("Desconhecido", best.2)
    else (best.1.getD "Desconhecido", best.2)

/-- Filename fallback of `analyze_folder_documents` (lines 526-528, 533-535,
539-541): when no text could be extracted (or download/analysis failed), the
document is classified by `identify_document_type` and the confidence is
halved (`confidence = confidence * 0.5`). -/
def classify_filename_fallback (filename folder_type : String) : String × ℚ :=
  let r := identify_document_type filename folder_type
  (r.1, r.2 * mkRat 5 10)

/-! ### `generate_standardized_name` (document_analyzer.py, lines 372-429)

`datetime.now().strftime('%Y-%m-%d')` is passed in as the explicit `today`
argument. -/

/-- `DocumentAnalyzer.generate_standardized_name`.  For an unknown folder type
the original file name is returned; otherwise the folder's template is filled
in via `formatTemplate` with the keyword arguments of the source's
`template.format(...)` call, the result is cleaned of repeated and dangling
underscores and given the original extension — and if the substitution raises
`KeyError` (a placeholder without a supplied value) the original file name is
returned unchanged. -/
def generate_standardized_name (doc_type folder_type employee_code employee_name
    original_filename today : String) : String :=
  match DOCUMENT_SCHEMAS.find? (fun p => p.1 == folder_type) with
  | none => original_filename
  | some sch =>
    let template := sch.2.template
    let info := extract_employee_info original_filename
    let nome_limpo := clean_employee_name employee_name
    let ext := (splitext original_filename).2
    match formatTemplate template [
        ("tipo", doc_type),
        ("codigo_func", employee_code),
        ("nome_func", nome_limpo),
        ("ano", info.ano.getD ""),
        ("data", info.data.getD today),
        ("periodo", info.periodo.getD ""),
        ("nome_dependente", info.nome_dependente.getD "")] with
    | .ok name0 =>
      let name1 := String.mk (collapseUnderscoreRuns name0.toList)
      let name2 := String.mk (stripUnderscores name1.toList)
      if chEndsWith name2.toList ext.toList then name2 else name2 ++ ext
    | .error _ => original_filename


/-! ### The persistent store (analysis_queue.py)

The four SQLite tables of `init_database` become lists of rows kept in rowid
order.  `AUTOINCREMENT` primary keys are modelled by explicit next-id
counters (SQLite's `AUTOINCREMENT` never reuses an id, so every live row's id
is below the counter).  `CURRENT_TIMESTAMP` values are passed in as `now`
arguments.  Columns that SQLite may hold as NULL are `Option`s. -/

/-- Row of `pending_analysis`. -/
structure PendingRow where
  id : Nat
  file_id : String
  file_name : String
  employee_code : String
  employee_name : String
  folder_type : String
  drive_id : String
  added_at : Nat
  status : String
deriving DecidableEq

/-- Row of `rename_suggestions`. -/
structure SuggestionRow where
  id : Nat
  file_id : String
  original_name : String
  suggested_name : String
  document_type : String
  employee_code : String
  employee_name : String
  folder_type : String
  drive_id : String
  confidence : ℚ
  extracted_text : String
  expiry_date : String
  analyzed_at : Nat
  status : String
  approved_by : Option String
  approved_at : Option Nat
deriving DecidableEq

/-- Row of `analyzed_cache`. -/
structure CacheRow where
  file_id : String
  file_name : String
  modified_time : Option String
  last_analyzed : Nat
  needs_rename : Bool
  employee_code : Option String
  folder_type : Option String
deriving DecidableEq

/-- Row of `processing_log`. -/
structure LogRow where
  file_id : String
  action : String
  details : String
deriving DecidableEq

/-- The whole database of `DocumentAnalysisQueue`. -/
structure Store where
  pending : List PendingRow
  nextPendingId : Nat
  suggestions : List SuggestionRow
  nextSuggestionId : Nat
  cache : List CacheRow
  log : List LogRow
deriving DecidableEq

/-- Input dictionary of `save_suggestion`; the keys read via
`suggestion.get(...)` are optional with the source's defaults applied inside
`save_suggestion`.  The dict built by `_analyze_document` also carries an
`action` key, which `save_suggestion` does not read. -/
structure SuggestionInput where
  file_id : String
  original_name : String
  suggested_name : String
  identified_type : Option String
  employee_code : String
  employee_name : String
  folder_type : String
  drive_id : String
  confidence : Option ℚ
  extracted_text : Option String
  expiry_date : Option String
deriving DecidableEq

/-- `DocumentAnalysisQueue.add_to_queue`: `INSERT OR IGNORE` on the
`file_id UNIQUE` column of `pending_analysis` — a second insert for an
existing `file_id` changes nothing; the call reports `True` either way. -/
def add_to_queue (st : Store) (file_id file_name employee_code employee_name
    folder_type drive_id : String) (now : Nat) : Store × Bool :=
  if st.pending.any (fun r => r.file_id == file_id) then (st, true)
  else
    ({ st with
        pending := st.pending ++
          [{ id := st.nextPendingId, file_id, file_name, employee_code,
             employee_name, folder_type, drive_id, added_at := now,
             status := "pending" }],
        nextPendingId := st.nextPendingId + 1 }, true)

/-- `DocumentAnalysisQueue.get_pending_documents`: pending-status rows,
oldest (insertion order realizes `ORDER BY added_at ASC`) first, limited. -/
def get_pending_documents (st : Store) (limit : Nat) : List PendingRow :=
  (st.pending.filter (fun r => r.status == "pending")).take limit

/-- `DocumentAnalysisQueue.mark_as_processed`: `UPDATE pending_analysis SET
status = 'processed' WHERE file_id = ?`. -/
def mark_as_processed (st : Store) (file_id : String) : Store :=
  { st with pending := st.pending.map (fun r =>
      if r.file_id == file_id then { r with status := "processed" } else r) }

/-- `DocumentAnalysisQueue.save_suggestion`: `INSERT OR REPLACE` on
`UNIQUE(file_id)` — any prior row for the same `file_id` is deleted and the
new row is inserted with a fresh `AUTOINCREMENT` id; the columns absent from
the insert (`status`, `approved_by`, `approved_at`) take their defaults. -/
def save_suggestion (st : Store) (s : SuggestionInput) (now : Nat) : Store × Bool :=
  ({ st with
      suggestions := st.suggestions.filter (fun r => r.file_id != s.file_id) ++
        [{ id := st.nextSuggestionId, file_id := s.file_id,
           original_name := s.original_name, suggested_name := s.suggested_name,
           document_type := s.identified_type.getD "Desconhecido",
           employee_code := s.employee_code, employee_name := s.employee_name,
           folder_type := s.folder_type, drive_id := s.drive_id,
           confidence := s.confidence.getD 0,
           extracted_text := s.extracted_text.getD "",
           expiry_date := s.expiry_date.getD "",
           analyzed_at := now, status := "pending",
           approved_by := none, approved_at := none }],
      nextSuggestionId := st.nextSuggestionId + 1 }, true)

/-- `DocumentAnalysisQueue.approve_suggestion`: unconditional
`UPDATE rename_suggestions SET status = 'approved', approved_by = ?,
approved_at = CURRENT_TIMESTAMP WHERE id = ?`; returns `True` whether or not
any row matched. -/
def approve_suggestion (st : Store) (suggestion_id : Nat) (approver : String)
    (now : Nat) : Store × Bool :=
  ({ st with suggestions := st.suggestions.map (fun r =>
      if r.id == suggestion_id then
        { r with status := "approved", approved_by := some approver,
                 approved_at := some now }
      else r) }, true)

/-- `DocumentAnalysisQueue.reject_suggestion`: unconditional
`UPDATE rename_suggestions SET status = 'rejected' WHERE id = ?`. -/
def reject_suggestion (st : Store) (suggestion_id : Nat) : Store × Bool :=
  ({ st with suggestions := st.suggestions.map (fun r =>
      if r.id == suggestion_id then { r with status := "rejected" } else r) }, true)

/-- `DocumentAnalysisQueue.update_suggestion_status`: unconditional
`UPDATE rename_suggestions SET status = ? WHERE id = ?`. -/
def update_suggestion_status (st : Store) (suggestion_id : Nat) (status : String) :
    Store × Bool :=
  ({ st with suggestions := st.suggestions.map (fun r =>
      if r.id == suggestion_id then { r with status := status } else r) }, true)

/-- `DocumentAnalysisQueue.get_suggestion`: `SELECT * FROM rename_suggestions
WHERE id = ?`, `None` when no row matches. -/
def get_suggestion (st : Store) (suggestion_id : Nat) : Option SuggestionRow :=
  st.suggestions.find? (fun r => r.id == suggestion_id)

/-- `DocumentAnalysisQueue.log_processing`: append-only insert into
`processing_log`. -/
def log_processing (st : Store) (file_id action details : String) : Store :=
  { st with log := st.log ++ [{ file_id, action, details }] }

/-- `DocumentAnalysisQueue.is_already_analyzed`: a cache row must exist, and
when a truthy (non-empty) `modified_time` is supplied it must equal the stored
one (a stored NULL differs from every supplied string, as in Python
`None != modified_time`). -/
def is_already_analyzed (st : Store) (file_id : String) (modified_time : String) : Bool :=
  match st.cache.find? (fun r => r.file_id == file_id) with
  | none => false
  | some row =>
    if modified_time != "" && row.modified_time != some modified_time then false
    else true

/-- `DocumentAnalysisQueue.mark_as_analyzed`: `INSERT OR REPLACE` on the
`file_id` primary key of `analyzed_cache`. -/
def mark_as_analyzed (st : Store) (file_id file_name : String)
    (modified_time : Option String) (needs_rename : Bool)
    (employee_code folder_type : Option String) (now : Nat) : Store :=
  { st with cache := st.cache.filter (fun r => r.file_id != file_id) ++
      [{ file_id, file_name, modified_time, last_analyzed := now,
         needs_rename, employee_code, folder_type }] }

/-- Status of the (first) pending row for a `file_id`, if any. -/
def pendingStatusOf (st : Store) (file_id : String) : Option String :=
  (st.pending.find? (fun r => r.file_id == file_id)).map (fun r => r.status)

/-- Status of the (first) suggestion row with a given id, if any. -/
def suggestionStatusOf (st : Store) (suggestion_id : Nat) : Option String :=
  (st.suggestions.find? (fun r => r.id == suggestion_id)).map (fun r => r.status)

/-! ### The background worker (background_worker.py)

`_analyze_document`'s mutations of the in-process `scan_progress` snapshot are
ephemeral (never persisted) and are not part of the store model. -/

/-- `DocumentAnalysisWorker._analyze_document` (lines 205-263): classify by
file name, generate a suggested name, save a suggestion only when the name
differs, and upsert the cache row.  `doc.get('modified_time')` is `None`
because `pending_analysis` has no such column, hence the cache row's
`modified_time := none`.  `today` stands for `datetime.now()`'s date. -/
def analyze_document (st : Store) (doc : PendingRow) (now : Nat) (today : String) : Store :=
  let dc := identify_document_type doc.file_name doc.folder_type
  let suggested_name := generate_standardized_name dc.1 doc.folder_type
    doc.employee_code doc.employee_name doc.file_name today
  let stNeeds :=
    if suggested_name != doc.file_name then
      ((save_suggestion st
        { file_id := doc.file_id, original_name := doc.file_name,
          suggested_name := suggested_name, identified_type := some dc.1,
          employee_code := doc.employee_code, employee_name := doc.employee_name,
          folder_type := doc.folder_type, drive_id := doc.drive_id,
          confidence := some dc.2, extracted_text := none,
          expiry_date := none } now).1, true)
    else (st, false)
  mark_as_analyzed stNeeds.1 doc.file_id doc.file_name none stNeeds.2
    (some doc.employee_code) (some doc.folder_type) now

/-- One iteration of the `for doc in pending` loop of
`DocumentAnalysisWorker._process_batch` (lines 188-203).  `fails doc` models
an exception raised inside the `try` block while analysing or persisting this
entry (classification, suggestion write, or the `mark_as_processed` update
failing before commit): the `except` arm only appends an `error` log row; on
success the entry is analysed, marked processed and an `analyzed` log row is
appended.  Partial effects of a failed step before the raise are not
modelled; the claims settled below only concern the log and the pending
statuses, which an aborted step does not change. -/
def process_one (fails : PendingRow → Option String) (now : Nat) (today : String)
    (st : Store) (doc : PendingRow) : Store :=
  match fails doc with
  | some msg => log_processing st doc.file_id "error" msg
  | none =>
    let st1 := analyze_document st doc now today
    let st2 := mark_as_processed st1 doc.file_id
    log_processing st2 doc.file_id "analyzed" "Documento analisado automaticamente"

/-- `DocumentAnalysisWorker._process_batch`: fetch the oldest pending entries
(default batch size 5) and run `process_one` over the fetched snapshot. -/
def process_batch (fails : PendingRow → Option String) (now : Nat) (today : String)
    (st : Store) (batch_size : Nat) : Store :=
  (get_pending_documents st batch_size).foldl (process_one fails now today) st

/-- File descriptor as returned by the Drive listing; `modifiedTime` may be
absent from the dict (`file.get('modifiedTime', '')`). -/
structure FileDesc where
  id : String
  name : String
  modifiedTime : Option String
deriving DecidableEq

/-- Per-file body of the scan loop of
`DocumentAnalysisWorker.scan_employee_folders` (lines 341-358): skip the file
when `is_already_analyzed` holds for its id and (defaulted) modified time,
otherwise `add_to_queue` it. -/
def scan_file (st : Store) (f : FileDesc) (employee_code employee_name
    folder_type drive_id : String) (now : Nat) : Store :=
  let modified_time := f.modifiedTime.getD ""
  if is_already_analyzed st f.id modified_time then st
  else (add_to_queue st f.id f.name employee_code employee_name folder_type
    drive_id now).1

/-! ### The approval route (app.py, lines 1104-1153)

`api_approve_suggestion` looks the suggestion up first and returns a 404
error without touching the store when it does not exist; otherwise the rename
outcome (modelled by `renameOk`; an exception in the rename is reported the
same way as a `False` result) decides between the `applied` and `failed`
status updates.  The out-of-scope transport details (JSON parsing, the
`drive_manager` availability check) are omitted; the Python falsy test
`if not suggestion_id` is kept as the `0` case. -/

inductive ApiResp where
  | missingId
  | notFound
  | applied (original_name new_name : String)
  | renameFailed
deriving DecidableEq

/-- `api_approve_suggestion` route body over the store. -/
def api_approve_suggestion (renameOk : Bool) (st : Store) (suggestion_id : Nat) :
    ApiResp × Store :=
  if suggestion_id == 0 then (.missingId, st)
  else
    match get_suggestion st suggestion_id with
    | none => (.notFound, st)
    | some sugg =>
      if renameOk then
        (.applied sugg.original_name sugg.suggested_name,
         (update_suggestion_status st suggestion_id "applied").1)
      else
        (.renameFailed, (update_suggestion_status st suggestion_id "failed").1)

/-! ### General helper lemmas -/

/-- Mapping a function that does not move any element relative to a predicate
commutes with `find?`. -/
lemma find?_map_of_pred_eq {α : Type} (l : List α) (p : α → Bool) (g : α → α)
    (hg : ∀ r, p (g r) = p r) :
    (l.map g).find? p = (l.find? p).map g := by
  induction l with
  | nil => rfl
  | cons r tl ih =>
    by_cases hc : p r = true
    · rw [List.map_cons, List.find?_cons_of_pos _ (by rw [hg]; exact hc),
        List.find?_cons_of_pos _ hc]
      rfl
    · rw [List.map_cons, List.find?_cons_of_neg _ (by rw [hg]; exact hc),
        List.find?_cons_of_neg _ hc, ih]

/-- A map that fixes every element of a list is the identity on it. -/
lemma map_id_on {α : Type} {l : List α} {f : α → α} (h : ∀ a ∈ l, f a = a) :
    l.map f = l := by
  induction l with
  | nil => rfl
  | cons a tl ih =>
    rw [List.map_cons, h a (List.mem_cons_self a tl),
      ih (fun b hb => h b (List.mem_cons_of_mem _ hb))]

/-- In a list whose elements have pairwise distinct `file_id`s, `find?` by the
`file_id` of a member returns exactly that member. -/
lemma find?_of_pairwise_fileid {l : List PendingRow} {e : PendingRow}
    (hpw : l.Pairwise (fun a b => a.file_id ≠ b.file_id)) (he : e ∈ l) :
    l.find? (fun r => r.file_id == e.file_id) = some e := by
  induction l with
  | nil => cases he
  | cons r tl ih =>
    rcases List.pairwise_cons.1 hpw with ⟨hhead, htail⟩
    rcases List.mem_cons.1 he with rfl | he'
    · exact List.find?_cons_of_pos _ (by simp)
    · rw [List.find?_cons_of_neg _ (by simpa using hhead e he'), ih htail he']

/-- A dropped tail of a list is one of its suffixes, stated via `chEndsWith`. -/
lemma chEndsWith_drop (cs : List Char) (i : Nat) :
    chEndsWith cs (cs.drop i) = true := by
  unfold chEndsWith
  rw [List.isPrefixOf_iff_prefix]
  exact ⟨(cs.take i).reverse, by rw [← List.reverse_append, List.take_append_drop]⟩

/-- The second component of `splitext` is empty or a dropped tail of the input. -/
lemma splitext_snd (o : String) :
    (splitext o).2 = "" ∨ ∃ i, (splitext o).2 = String.mk (o.toList.drop i) := by
  unfold splitext
  dsimp only
  split
  · exact Or.inl rfl
  · split
    · exact Or.inr ⟨_, rfl⟩
    · exact Or.inl rfl

/-- The second component of `splitext` is always a suffix of the input,
so the input always "ends with" its own extension. -/
lemma chEndsWith_splitext (o : String) :
    chEndsWith o.toList (splitext o).2.toList = true := by
  rcases splitext_snd o with h | ⟨i, h⟩
  · rw [h]
    simp [chEndsWith]
  · rw [h]
    exact chEndsWith_drop o.toList i

/-! ### Claim C7 — idempotent enqueue -/

/-- Claim C7: enqueueing the same `file_id` twice results in exactly one
pending row for that `file_id`, carrying the fields of the first insert; the
second call leaves the store unchanged and still reports success. -/
theorem c7_enqueue_idempotent (st : Store) (fid n1 e1 en1 f1 d1 : String) (t1 : Nat)
    (n2 e2 en2 f2 d2 : String) (t2 : Nat)
    (hfree : ∀ r ∈ st.pending, r.file_id ≠ fid) :
    (add_to_queue (add_to_queue st fid n1 e1 en1 f1 d1 t1).1 fid n2 e2 en2 f2 d2 t2).2 = true ∧
    (add_to_queue (add_to_queue st fid n1 e1 en1 f1 d1 t1).1 fid n2 e2 en2 f2 d2 t2).1 =
      (add_to_queue st fid n1 e1 en1 f1 d1 t1).1 ∧
    ((add_to_queue st fid n1 e1 en1 f1 d1 t1).1.pending.filter (fun r => r.file_id == fid)) =
      [{ id := st.nextPendingId, file_id := fid, file_name := n1, employee_code := e1,
         employee_name := en1, folder_type := f1, drive_id := d1, added_at := t1,
         status := "pending" }] := by
  have hany : st.pending.any (fun r => r.file_id == fid) = false := by
    simp only [List.any_eq_false]
    intro r hr
    simpa using hfree r hr
  have h1 : (add_to_queue st fid n1 e1 en1 f1 d1 t1).1 =
      { st with
        pending := st.pending ++
          [{ id := st.nextPendingId, file_id := fid, file_name := n1, employee_code := e1,
             employee_name := en1, folder_type := f1, drive_id := d1, added_at := t1,
             status := "pending" }],
        nextPendingId := st.nextPendingId + 1 } := by
    unfold add_to_queue
    rw [hany]
    rfl
  have h3 : add_to_queue (add_to_queue st fid n1 e1 en1 f1 d1 t1).1 fid n2 e2 en2 f2 d2 t2 =
      ((add_to_queue st fid n1 e1 en1 f1 d1 t1).1, true) := by
    rw [h1]
    unfold add_to_queue
    simp
  have hnil : st.pending.filter (fun r => r.file_id == fid) = [] := by
    rw [List.filter_eq_nil_iff]
    intro r hr
    simpa using hfree r hr
  refine ⟨by rw [h3], by rw [h3], ?_⟩
  rw [h1]
  simp [List.filter_append, hnil]

/-- Empty store used by the C7 witness. -/
def emptyStore : Store :=
  { pending := [], nextPendingId := 1, suggestions := [], nextSuggestionId := 1,
    cache := [], log := [] }

/-- Witness for C7 at a concrete store and inputs. -/
theorem c7_enqueue_idempotent_witness :
    (add_to_queue (add_to_queue emptyStore "f1" "a.pdf" "1.0" "Ana" "01" "dr" 10).1
      "f1" "b.pdf" "2.0" "Bia" "02" "dr" 11).2 = true ∧
    (add_to_queue (add_to_queue emptyStore "f1" "a.pdf" "1.0" "Ana" "01" "dr" 10).1
      "f1" "b.pdf" "2.0" "Bia" "02" "dr" 11).1 =
      (add_to_queue emptyStore "f1" "a.pdf" "1.0" "Ana" "01" "dr" 10).1 ∧
    ((add_to_queue emptyStore "f1" "a.pdf" "1.0" "Ana" "01" "dr" 10).1.pending.filter
      (fun r => r.file_id == "f1")) =
      [{ id := 1, file_id := "f1", file_name := "a.pdf", employee_code := "1.0",
         employee_name := "Ana", folder_type := "01", drive_id := "dr", added_at := 10,
         status := "pending" }] :=
  c7_enqueue_idempotent emptyStore "f1" "a.pdf" "1.0" "Ana" "01" "dr" 10
    "b.pdf" "2.0" "Bia" "02" "dr" 11 (by decide)

/-! ### Claim C9 — suggestion upsert silently reopens -/

/-- Claim C9: upserting a suggestion for a `file_id` that already has a row
replaces the row entirely: the replacement has status `pending`, `NULL`
approval fields and a fresh primary-key id, and the prior row is gone —
whatever its status was. -/
theorem c9_save_suggestion_reopens (st : Store) (s : SuggestionInput) (now : Nat)
    (old : SuggestionRow) (hold : old ∈ st.suggestions) (hfid : old.file_id = s.file_id)
    (hid : old.id < st.nextSuggestionId) :
    (∀ r ∈ (save_suggestion st s now).1.suggestions, r.file_id = s.file_id →
        r.id = st.nextSuggestionId ∧ r.status = "pending" ∧ r.approved_by = none ∧
        r.approved_at = none ∧ r.id ≠ old.id) ∧
    (∃ r ∈ (save_suggestion st s now).1.suggestions, r.file_id = s.file_id) ∧
    old ∉ (save_suggestion st s now).1.suggestions := by
  refine ⟨?_, ?_, ?_⟩
  · intro r hr hrf
    rcases List.mem_append.1 hr with hr' | hr'
    · exact absurd hrf (by simpa using (List.mem_filter.1 hr').2)
    · rcases List.mem_singleton.1 hr' with rfl
      exact ⟨rfl, rfl, rfl, rfl, by simpa using Nat.ne_of_gt hid⟩
  · exact ⟨_, List.mem_append_right _ (List.mem_cons_self _ _), rfl⟩
  · intro hmem
    rcases List.mem_append.1 hmem with hr' | hr'
    · exact absurd hfid (by simpa using (List.mem_filter.1 hr').2)
    · rcases List.mem_singleton.1 hr' with heq
      exact absurd (congrArg SuggestionRow.id heq) (by simpa using Nat.ne_of_lt hid)

/-- Approved suggestion row used by the C9 witness. -/
def rowC9 : SuggestionRow :=
  { id := 1, file_id := "f1", original_name := "a.pdf", suggested_name := "b.pdf",
    document_type := "RG", employee_code := "1.0", employee_name := "Ana",
    folder_type := "01 - Documentos Pessoais", drive_id := "dr",
    confidence := mkRat 6 10, extracted_text := "", expiry_date := "",
    analyzed_at := 1, status := "approved", approved_by := some "admin",
    approved_at := some 2 }

/-- Store with one approved suggestion, used by the C9 witness. -/
def storeC9 : Store :=
  { pending := [], nextPendingId := 1, suggestions := [rowC9],
    nextSuggestionId := 2, cache := [], log := [] }

/-- Suggestion-dict input used by the C9 witness. -/
def inputC9 : SuggestionInput :=
  { file_id := "f1", original_name := "a.pdf", suggested_name := "c.pdf",
    identified_type := some "CPF", employee_code := "1.0", employee_name := "Ana",
    folder_type := "01 - Documentos Pessoais", drive_id := "dr",
    confidence := some (mkRat 8 10), extracted_text := none, expiry_date := none }

/-- Witness for C9: re-analysing the file replaces the approved row by a fresh
pending one. -/
theorem c9_save_suggestion_reopens_witness :
    (∀ r ∈ (save_suggestion storeC9 inputC9 5).1.suggestions, r.file_id = inputC9.file_id →
        r.id = storeC9.nextSuggestionId ∧ r.status = "pending" ∧ r.approved_by = none ∧
        r.approved_at = none ∧ r.id ≠ rowC9.id) ∧
    (∃ r ∈ (save_suggestion storeC9 inputC9 5).1.suggestions, r.file_id = inputC9.file_id) ∧
    rowC9 ∉ (save_suggestion storeC9 inputC9 5).1.suggestions :=
  c9_save_suggestion_reopens storeC9 inputC9 5 rowC9
    (by decide) (by decide) (by decide)

/-! ### Claim C10 — empty modified time always hits the cache -/

/-- Claim C10: with an empty `modified_time` (the Scanner default when the
file descriptor carries no `modifiedTime`), `is_already_analyzed` is true as
soon as any cache row exists for the `file_id`, whatever modified time the
row stores, and the scan loop then never re-enqueues the file. -/
theorem c10_empty_modified_time (st : Store) (fid : String)
    (hcache : (st.cache.find? (fun r => r.file_id == fid)).isSome) :
    is_already_analyzed st fid "" = true ∧
    (∀ (f : FileDesc) ec en ft did now, f.id = fid → f.modifiedTime = none →
      scan_file st f ec en ft did now = st) := by
  obtain ⟨row, hrow⟩ := Option.isSome_iff_exists.1 hcache
  have h1 : is_already_analyzed st fid "" = true := by
    unfold is_already_analyzed
    rw [hrow]
    simp
  refine ⟨h1, ?_⟩
  intro f ec en ft did now hfid hmt
  unfold scan_file
  rw [hmt, hfid]
  simp only [Option.getD_none, h1, if_true]

/-- Cache row with a present stored modified time, used by the C10 witness. -/
def cacheRowC10 : CacheRow :=
  { file_id := "f1", file_name := "a.pdf", modified_time := some "t1",
    last_analyzed := 1, needs_rename := false, employee_code := some "1.0",
    folder_type := some "01" }

/-- Cache-only store used by the C10 witness: the stored modified time
`t1` is present but irrelevant to the empty-string check. -/
def storeC10 : Store :=
  { pending := [], nextPendingId := 1, suggestions := [], nextSuggestionId := 1,
    cache := [cacheRowC10], log := [] }

/-- Witness for C10 at a concrete store and file descriptor. -/
theorem c10_empty_modified_time_witness :
    is_already_analyzed storeC10 "f1" "" = true ∧
    scan_file storeC10 { id := "f1", name := "a.pdf", modifiedTime := none }
      "1.0" "Ana" "01" "dr" 9 = storeC10 :=
  ⟨(c10_empty_modified_time storeC10 "f1" (by decide)).1,
   (c10_empty_modified_time storeC10 "f1" (by decide)).2
     { id := "f1", name := "a.pdf", modifiedTime := none } "1.0" "Ana" "01" "dr" 9 rfl rfl⟩

/-! ### Claim C5 — approving an unknown suggestion id -/

/-- Claim C5: approving a suggestion id with no suggestion row signals
NotFound to the caller and leaves every table of the store unchanged; the
core `approve_suggestion` update also matches no row, so it too leaves the
store as it was.  (`suggestion_id ≠ 0` because ids are `AUTOINCREMENT`
values starting at 1; the route treats a falsy 0 as a missing parameter.) -/
theorem c5_approve_unknown_id (st : Store) (sid : Nat) (renameOk : Bool)
    (approver : String) (now : Nat)
    (hsid : sid ≠ 0) (hnone : get_suggestion st sid = none) :
    api_approve_suggestion renameOk st sid = (ApiResp.notFound, st) ∧
    (approve_suggestion st sid approver now).1 = st := by
  constructor
  · unfold api_approve_suggestion
    rw [if_neg (by simpa using hsid), hnone]
  · have hall : ∀ r ∈ st.suggestions, ¬(r.id == sid) = true :=
      List.find?_eq_none.1 hnone
    unfold approve_suggestion
    dsimp only
    rw [map_id_on (fun r hr => by rw [if_neg (hall r hr)])]

/-- Witness for C5: an empty store, id 7. -/
theorem c5_approve_unknown_id_witness :
    api_approve_suggestion true emptyStore 7 = (ApiResp.notFound, emptyStore) ∧
    (approve_suggestion emptyStore 7 "admin" 3).1 = emptyStore :=
  c5_approve_unknown_id emptyStore 7 true "admin" 3 (by decide) (by decide)

/-! ### The template substitution always fails

Every folder schema's template names the placeholder `nome_completo`
(also `validade` and `ext`), but `generate_standardized_name` supplies only
`tipo`, `codigo_func`, `nome_func`, `ano`, `data`, `periodo` and
`nome_dependente` — so `str.format` raises `KeyError` on every known folder
type, and the function returns the original file name on every input. -/

/-- Every schema of `DOCUMENT_SCHEMAS` carries the shared template. -/
lemma template_of_mem (p : String × Schema) (hp : p ∈ DOCUMENT_SCHEMAS) :
    p.2.template = stdTemplate := by
  fin_cases hp <;> rfl

/-- Substituting the supplied keyword arguments into the shared template fails
at `nome_completo`, whatever the supplied values are. -/
lemma formatTemplate_std_fails (v1 v2 v3 v4 v5 v6 v7 : String) :
    formatTemplate stdTemplate [("tipo", v1), ("codigo_func", v2), ("nome_func", v3),
      ("ano", v4), ("data", v5), ("periodo", v6), ("nome_dependente", v7)] =
      .error "nome_completo" := rfl

/-- `generate_standardized_name` returns its original file name unchanged on
every input: unknown folder types short-circuit, and for each of the twelve
known folder types the template substitution raises `KeyError` and the
`except` arm returns the original name. -/
lemma generate_standardized_name_eq_original
    (doc_type folder_type employee_code employee_name original_filename today : String) :
    generate_standardized_name doc_type folder_type employee_code employee_name
      original_filename today = original_filename := by
  unfold generate_standardized_name
  cases hfind : DOCUMENT_SCHEMAS.find? (fun p => p.1 == folder_type) with
  | none => rfl
  | some p =>
    have ht : p.2.template = stdTemplate :=
      template_of_mem p (List.mem_of_find?_eq_some hfind)
    dsimp only
    rw [ht, formatTemplate_std_fails]

/-! ### Claim C1 — the "RG_Joao.pdf" scenario -/

/-- Counterexample to C1 as stated: the classifier half holds (`RG` at
confidence `0.6`), but the suggested name is the unchanged original
`RG_Joao.pdf`, not `RG_João_Santos.pdf`. -/
theorem c1_scenario_counterexample :
    identify_document_type "RG_Joao.pdf" "01 - Documentos Pessoais" = ("RG", mkRat 6 10) ∧
    generate_standardized_name "RG" "01 - Documentos Pessoais" "1.0"
      "João Da Silva Santos" "RG_Joao.pdf" "2026-10-12" = "RG_Joao.pdf" ∧
    ("RG_Joao.pdf" : String) ≠ "RG_João_Santos" ++ (splitext "RG_Joao.pdf").2 := by
  refine ⟨by decide, by decide, by decide⟩

/-- Amended C1: `identify_document_type` returns `("RG", 0.6)` with `0.6`
inside the claimed `[0.6, 0.8]` band, and `generate_standardized_name`
returns the original file name `RG_Joao.pdf` unchanged (for any current date),
because the template references the unsupplied placeholder `nome_completo`. -/
theorem c1_scenario_amended :
    identify_document_type "RG_Joao.pdf" "01 - Documentos Pessoais" = ("RG", mkRat 6 10) ∧
    mkRat 6 10 ≥ mkRat 6 10 ∧ mkRat 6 10 ≤ mkRat 8 10 ∧
    ∀ today, generate_standardized_name "RG" "01 - Documentos Pessoais" "1.0"
      "João Da Silva Santos" "RG_Joao.pdf" today = "RG_Joao.pdf" :=
  ⟨by decide, by decide, by decide,
   fun today => generate_standardized_name_eq_original _ _ _ _ _ today⟩

/-! ### Claim C2 — shape of generated names -/

/-- Counterexample to C2 as stated: for original names that themselves carry
runs of separators or dangling separators, the generated name (the original,
unchanged) violates the no-run and no-dangling-separator clauses. -/
theorem c2_name_shape_counterexample :
    generate_standardized_name "RG" "01 - Documentos Pessoais" "1.0" "Ana Silva"
      "a__b.pdf" "2026-10-12" = "a__b.pdf" ∧
    containsSub "a__b.pdf".toList "__".toList = true ∧
    generate_standardized_name "RG" "01 - Documentos Pessoais" "1.0" "Ana Silva"
      "_a_.pdf" "2026-10-12" = "_a_.pdf" ∧
    "_a_.pdf".toList.headD ' ' = '_' := by
  refine ⟨by decide, by decide, by decide, by decide⟩

/-- Amended C2: `generate_standardized_name` always returns the original file
name unchanged — hence it always ends in the original's extension, but it
contains separator runs or leading/trailing separators exactly when the
original name does. -/
theorem c2_name_shape_amended (doc_type folder_type employee_code employee_name
    original_filename today : String) :
    generate_standardized_name doc_type folder_type employee_code employee_name
      original_filename today = original_filename ∧
    chEndsWith (generate_standardized_name doc_type folder_type employee_code
      employee_name original_filename today).toList
      (splitext original_filename).2.toList = true := by
  refine ⟨generate_standardized_name_eq_original _ _ _ _ _ _, ?_⟩
  rw [generate_standardized_name_eq_original]
  exact chEndsWith_splitext original_filename

/-! ### Claim C8 — confidence bounds -/

/-- Invariant of the best-match folds of the classifier: each step either
keeps the accumulator or installs a value inside `[0, 1]`, so the fold's
score stays inside `[0, 1]`. -/
lemma foldl_snd_bounds {α β : Type} (f : (Option β × ℚ) → α → (Option β × ℚ))
    (hf : ∀ acc a, f acc a = acc ∨ (0 ≤ (f acc a).2 ∧ (f acc a).2 ≤ 1)) :
    ∀ (l : List α) (acc : Option β × ℚ), 0 ≤ acc.2 → acc.2 ≤ 1 →
      0 ≤ (l.foldl f acc).2 ∧ (l.foldl f acc).2 ≤ 1 := by
  intro l
  induction l with
  | nil => exact fun acc h0 h1 => ⟨h0, h1⟩
  | cons a tl ih =>
    intro acc h0 h1
    rw [List.foldl_cons]
    rcases hf acc a with h | h
    · rw [h]
      exact ih acc h0 h1
    · exact ih _ h.1 h.2

/-- A fold that conditionally adds nonnegative weights stays nonnegative. -/
lemma foldl_cond_add_nonneg {α : Type} (c : α → Bool) (w : α → ℚ) (hw : ∀ a, 0 ≤ w a) :
    ∀ (l : List α) (s : ℚ), 0 ≤ s → 0 ≤ l.foldl (fun s a => if c a then s + w a else s) s := by
  intro l
  induction l with
  | nil => exact fun s hs => hs
  | cons a tl ih =>
    intro s hs
    rw [List.foldl_cons]
    by_cases h : c a = true
    · rw [if_pos h]
      exact ih _ (add_nonneg hs (hw a))
    · rw [if_neg h]
      exact ih _ hs

/-- Filename-based classification always yields a confidence in `[0, 1]`. -/
lemma identify_confidence_bounds (fn ft : String) :
    0 ≤ (identify_document_type fn ft).2 ∧ (identify_document_type fn ft).2 ≤ 1 := by
  unfold identify_document_type
  cases hfind : DOCUMENT_SCHEMAS.find? (fun p => p.1 == ft) with
  | none => exact ⟨le_refl 0, zero_le_one⟩
  | some sch =>
    dsimp only
    refine foldl_snd_bounds _ (fun acc a => ?_) _ _ (le_refl 0) zero_le_one
    dsimp only
    by_cases h1 : regexSearch a.re (pyLower fn).toList = true
    · rw [if_pos h1]
      by_cases h2 : (if strContains (pyLower fn) a.src then mkRat 8 10 else mkRat 6 10) > acc.2
      · rw [if_pos h2]
        refine Or.inr ⟨?_, ?_⟩ <;> dsimp only <;> split <;> decide
      · rw [if_neg h2]
        exact Or.inl rfl
    · rw [if_neg h1]
      exact Or.inl rfl

/-- Content-based classification always yields a confidence in `[0, 1]`. -/
lemma classify_confidence_bounds (txt ft : String) :
    0 ≤ (classify_document_by_content txt ft).2 ∧
      (classify_document_by_content txt ft).2 ≤ 1 := by
  unfold classify_document_by_content
  split
  · exact ⟨le_refl 0, zero_le_one⟩
  · dsimp only
    split <;>
    · dsimp only
      refine foldl_snd_bounds _ (fun acc a => ?_) _ _ (le_refl 0) zero_le_one
      dsimp only
      split
      · refine Or.inr ⟨?_, ?_⟩ <;> dsimp only
        · refine le_min ?_ zero_le_one
          refine div_nonneg ?_ (Nat.cast_nonneg _)
          exact foldl_cond_add_nonneg _ _
            (fun kw => div_nonneg (Nat.cast_nonneg _) (Nat.cast_nonneg _)) _ _ (le_refl 0)
        · exact min_le_right _ _
      · exact Or.inl rfl

/-- Claim C8: every classifier confidence — filename-based, content-based and
the filename fallback after failed content extraction — lies in `[0, 1]`, and
the fallback is exactly (hence at most) `0.5` times the filename-only
confidence for the same input. -/
theorem c8_confidence_bounds :
    (∀ fn ft, 0 ≤ (identify_document_type fn ft).2 ∧
      (identify_document_type fn ft).2 ≤ 1) ∧
    (∀ txt ft, 0 ≤ (classify_document_by_content txt ft).2 ∧
      (classify_document_by_content txt ft).2 ≤ 1) ∧
    (∀ fn ft, 0 ≤ (classify_filename_fallback fn ft).2 ∧
      (classify_filename_fallback fn ft).2 ≤ 1 ∧
      (classify_filename_fallback fn ft).2 ≤
        mkRat 5 10 * (identify_document_type fn ft).2) := by
  refine ⟨identify_confidence_bounds, classify_confidence_bounds, fun fn ft => ?_⟩
  obtain ⟨h0, h1⟩ := identify_confidence_bounds fn ft
  have hfb : (classify_filename_fallback fn ft).2 =
      (identify_document_type fn ft).2 * mkRat 5 10 := rfl
  have h5 : (0 : ℚ) ≤ mkRat 5 10 := by decide
  have h5' : mkRat 5 10 ≤ 1 := by decide
  refine ⟨hfb ▸ mul_nonneg h0 h5, ?_, ?_⟩
  · rw [hfb]
    calc (identify_document_type fn ft).2 * mkRat 5 10 ≤ 1 * 1 :=
      mul_le_mul h1 h5' h5 zero_le_one
    _ = 1 := one_mul 1
  · rw [hfb, mul_comm]

/-! ### Claim C4 — per-entry failure isolation in the batch drain -/

/-- `analyze_document` touches only the suggestion and cache tables. -/
lemma analyze_document_pending (st : Store) (doc : PendingRow) (now : Nat) (today : String) :
    (analyze_document st doc now today).pending = st.pending := by
  unfold analyze_document save_suggestion mark_as_analyzed
  dsimp only
  split <;> rfl

/-- `analyze_document` appends nothing to the processing log. -/
lemma analyze_document_log (st : Store) (doc : PendingRow) (now : Nat) (today : String) :
    (analyze_document st doc now today).log = st.log := by
  unfold analyze_document save_suggestion mark_as_analyzed
  dsimp only
  split <;> rfl

/-- A failing batch step only appends the `error` log row. -/
lemma process_one_fail (fails : PendingRow → Option String) (now : Nat) (today : String)
    (st : Store) (d : PendingRow) (msg : String) (hf : fails d = some msg) :
    process_one fails now today st d = log_processing st d.file_id "error" msg := by
  unfold process_one
  rw [hf]

/-- A successful batch step leaves the pending table with only the matching
row's status flipped to `processed`. -/
lemma process_one_pending_success (fails : PendingRow → Option String) (now : Nat)
    (today : String) (st : Store) (d : PendingRow) (hf : fails d = none) :
    (process_one fails now today st d).pending =
      st.pending.map (fun r =>
        if r.file_id == d.file_id then { r with status := "processed" } else r) := by
  unfold process_one
  rw [hf]
  show (log_processing (mark_as_processed (analyze_document st d now today) d.file_id)
    d.file_id "analyzed" "Documento analisado automaticamente").pending = _
  unfold log_processing mark_as_processed
  dsimp only
  rw [analyze_document_pending]

/-- The pending-row update of `mark_as_processed` never changes a row's
`file_id`, so `find?` by `file_id` commutes with it. -/
lemma find?_mark_update (l : List PendingRow) (dfid fid : String) :
    (l.map (fun r => if r.file_id == dfid then { r with status := "processed" } else r)).find?
      (fun r => r.file_id == fid) =
    (l.find? (fun r => r.file_id == fid)).map
      (fun r => if r.file_id == dfid then { r with status := "processed" } else r) := by
  refine find?_map_of_pred_eq _ _ _ (fun x => ?_)
  show ((if (x.file_id == dfid) = true then { x with status := "processed" } else x).file_id
    == fid) = (x.file_id == fid)
  by_cases hx : (x.file_id == dfid) = true
  · rw [if_pos hx]
  · rw [if_neg hx]

/-- One batch step does not change the status of a pending row with a
different `file_id`. -/
lemma process_one_statusOf_ne (fails : PendingRow → Option String) (now : Nat)
    (today : String) (st : Store) (d : PendingRow) (fid : String)
    (hne : d.file_id ≠ fid) :
    pendingStatusOf (process_one fails now today st d) fid = pendingStatusOf st fid := by
  cases hf : fails d with
  | some msg => rw [process_one_fail fails now today st d msg hf]; rfl
  | none =>
    unfold pendingStatusOf
    rw [process_one_pending_success fails now today st d hf, find?_mark_update]
    cases hfind : st.pending.find? (fun r => r.file_id == fid) with
    | none => rfl
    | some r0 =>
      have hp0 : r0.file_id = fid := by simpa using List.find?_some hfind
      have : (r0.file_id == d.file_id) = false := by
        simp [hp0]
        exact fun h => hne h.symm
      show some (if (r0.file_id == d.file_id) = true then _ else r0).status = some r0.status
      rw [this]
      simp

/-- A successful batch step marks its own entry processed (when a pending row
for it exists at all). -/
lemma process_one_statusOf_success (fails : PendingRow → Option String) (now : Nat)
    (today : String) (st : Store) (d : PendingRow) (hf : fails d = none) :
    pendingStatusOf (process_one fails now today st d) d.file_id =
      (pendingStatusOf st d.file_id).map (fun _ => "processed") := by
  unfold pendingStatusOf
  rw [process_one_pending_success fails now today st d hf, find?_mark_update]
  cases hfind : st.pending.find? (fun r => r.file_id == d.file_id) with
  | none => rfl
  | some r0 =>
    have hp0 : (r0.file_id == d.file_id) = true := by
      simpa using List.find?_some hfind
    show some (if (r0.file_id == d.file_id) = true then _ else r0).status = _
    rw [if_pos hp0]
    rfl

/-- One batch step keeps every existing log row. -/
lemma process_one_log_mono (fails : PendingRow → Option String) (now : Nat)
    (today : String) (st : Store) (d : PendingRow) (a : LogRow) (ha : a ∈ st.log) :
    a ∈ (process_one fails now today st d).log := by
  cases hf : fails d with
  | some msg =>
    rw [process_one_fail fails now today st d msg hf]
    exact List.mem_append_left _ ha
  | none =>
    unfold process_one
    rw [hf]
    show a ∈ (log_processing (mark_as_processed (analyze_document st d now today) d.file_id)
      d.file_id "analyzed" "Documento analisado automaticamente").log
    unfold log_processing mark_as_processed
    dsimp only
    rw [analyze_document_log]
    exact List.mem_append_left _ ha

/-- Folding batch steps over entries with other `file_id`s leaves a row's
status unchanged. -/
lemma foldl_statusOf_ne (fails : PendingRow → Option String) (now : Nat) (today : String)
    (fid : String) (L : List PendingRow) :
    ∀ (st : Store), (∀ e ∈ L, e.file_id ≠ fid) →
      pendingStatusOf (L.foldl (process_one fails now today) st) fid =
        pendingStatusOf st fid := by
  induction L with
  | nil => exact fun st _ => rfl
  | cons e tl ih =>
    intro st hall
    rw [List.foldl_cons, ih _ (fun x hx => hall x (List.mem_cons_of_mem _ hx)),
      process_one_statusOf_ne fails now today st e fid (hall e (List.mem_cons_self _ _))]

/-- Folding batch steps keeps every existing log row. -/
lemma foldl_log_mono (fails : PendingRow → Option String) (now : Nat) (today : String)
    (L : List PendingRow) :
    ∀ (st : Store) (a : LogRow), a ∈ st.log →
      a ∈ (L.foldl (process_one fails now today) st).log := by
  induction L with
  | nil => exact fun _ _ h => h
  | cons e tl ih =>
    intro st a ha
    rw [List.foldl_cons]
    exact ih _ a (process_one_log_mono fails now today st e a ha)

/-- Amended C4: a failing entry's error is logged (`action = "error"`) and the
rest of the batch is still processed, but the failing entry is NOT marked
processed — it stays `pending` (and is therefore fetched again by later
cycles).  The `Pairwise` hypothesis is the `file_id UNIQUE` constraint of the
pending table. -/
theorem c4_drain_amended (st : Store) (fails : PendingRow → Option String)
    (now : Nat) (today : String) (k : Nat) (d : PendingRow) (msg : String)
    (hpw : st.pending.Pairwise (fun a b => a.file_id ≠ b.file_id))
    (hd : d ∈ get_pending_documents st k) (hf : fails d = some msg) :
    ({ file_id := d.file_id, action := "error", details := msg } : LogRow) ∈
      (process_batch fails now today st k).log ∧
    pendingStatusOf (process_batch fails now today st k) d.file_id = some "pending" ∧
    (∀ d' ∈ get_pending_documents st k, fails d' = none →
      pendingStatusOf (process_batch fails now today st k) d'.file_id = some "processed") := by
  have hsub : List.Sublist (get_pending_documents st k) st.pending :=
    (List.take_sublist _ _).trans (List.filter_sublist _)
  have hbpw : (get_pending_documents st k).Pairwise (fun a b => a.file_id ≠ b.file_id) :=
    hpw.sublist hsub
  have hstatus : ∀ e ∈ get_pending_documents st k,
      pendingStatusOf st e.file_id = some "pending" := by
    intro e he
    have h1 : e ∈ st.pending.filter (fun r => r.status == "pending") :=
      List.mem_of_mem_take he
    have h2 := List.mem_filter.1 h1
    unfold pendingStatusOf
    rw [find?_of_pairwise_fileid hpw h2.1]
    simpa using h2.2
  have hAB : ∀ (L1 L2 : List PendingRow), get_pending_documents st k = L1 ++ d :: L2 →
      ({ file_id := d.file_id, action := "error", details := msg } : LogRow) ∈
        (process_batch fails now today st k).log ∧
      pendingStatusOf (process_batch fails now today st k) d.file_id = some "pending" := by
    intro L1 L2 hsplit
    have hbpw' := hbpw
    rw [hsplit, List.pairwise_append] at hbpw'
    obtain ⟨pw1, pw2, hcross⟩ := hbpw'
    have hL1 : ∀ x ∈ L1, x.file_id ≠ d.file_id :=
      fun x hx => hcross x hx d (List.mem_cons_self _ _)
    have hL2 : ∀ y ∈ L2, y.file_id ≠ d.file_id :=
      fun y hy => ((List.pairwise_cons.1 pw2).1 y hy).symm
    have hkey : process_batch fails now today st k =
        L2.foldl (process_one fails now today)
          (process_one fails now today (L1.foldl (process_one fails now today) st) d) := by
      unfold process_batch
      rw [hsplit, List.foldl_append, List.foldl_cons]
    have hst1 : pendingStatusOf (L1.foldl (process_one fails now today) st) d.file_id =
        some "pending" := by
      rw [foldl_statusOf_ne fails now today d.file_id L1 st hL1]
      exact hstatus d hd
    have hstep := process_one_fail fails now today
      (L1.foldl (process_one fails now today) st) d msg hf
    constructor
    · rw [hkey]
      refine foldl_log_mono fails now today L2 _ _ ?_
      rw [hstep]
      unfold log_processing
      exact List.mem_append_right _ (List.mem_cons_self _ _)
    · rw [hkey, foldl_statusOf_ne fails now today d.file_id L2 _ hL2, hstep]
      exact hst1
  obtain ⟨L1, L2, hsplit⟩ := List.append_of_mem hd
  obtain ⟨hA, hB⟩ := hAB L1 L2 hsplit
  refine ⟨hA, hB, ?_⟩
  intro d' hd' hnone
  obtain ⟨M1, M2, hsplit'⟩ := List.append_of_mem hd'
  have hbpw' := hbpw
  rw [hsplit', List.pairwise_append] at hbpw'
  obtain ⟨pw1, pw2, hcross⟩ := hbpw'
  have hM1 : ∀ x ∈ M1, x.file_id ≠ d'.file_id :=
    fun x hx => hcross x hx d' (List.mem_cons_self _ _)
  have hM2 : ∀ y ∈ M2, y.file_id ≠ d'.file_id :=
    fun y hy => ((List.pairwise_cons.1 pw2).1 y hy).symm
  have hkey : process_batch fails now today st k =
      M2.foldl (process_one fails now today)
        (process_one fails now today (M1.foldl (process_one fails now today) st) d') := by
    unfold process_batch
    rw [hsplit', List.foldl_append, List.foldl_cons]
  have hst1 : pendingStatusOf (M1.foldl (process_one fails now today) st) d'.file_id =
      some "pending" := by
    rw [foldl_statusOf_ne fails now today d'.file_id M1 st hM1]
    exact hstatus d' hd'
  rw [hkey, foldl_statusOf_ne fails now today d'.file_id M2 _ hM2,
    process_one_statusOf_success fails now today _ d' hnone, hst1]
  rfl

/-- Two-entry pending table for the C4 counterexample and witness: `f1` will
fail, `f2` will succeed. -/
def pendingRowC4a : PendingRow :=
  { id := 1, file_id := "f1", file_name := "a.pdf", employee_code := "1.0",
    employee_name := "Ana", folder_type := "X", drive_id := "dr", added_at := 1,
    status := "pending" }

def pendingRowC4b : PendingRow :=
  { id := 2, file_id := "f2", file_name := "b.pdf", employee_code := "1.0",
    employee_name := "Ana", folder_type := "X", drive_id := "dr", added_at := 2,
    status := "pending" }

def storeC4 : Store :=
  { pending := [pendingRowC4a, pendingRowC4b], nextPendingId := 3, suggestions := [],
    nextSuggestionId := 1, cache := [], log := [] }

/-- Failure oracle of the C4 scenario: the analysis of `f1` raises. -/
def failsC4 : PendingRow → Option String :=
  fun d => if d.file_id == "f1" then some "boom" else none

/-- Counterexample to C4 as stated: in a batch where `f1`'s analysis fails
(witnessed by its `error` log row) and `f2` succeeds, the failing entry is
left `pending` — it is not marked processed, so later cycles retry it. -/
theorem c4_drain_counterexample :
    ({ file_id := "f1", action := "error", details := "boom" } : LogRow) ∈
      (process_batch failsC4 7 "2026-10-12" storeC4 5).log ∧
    pendingStatusOf (process_batch failsC4 7 "2026-10-12" storeC4 5) "f1" = some "pending" ∧
    pendingStatusOf (process_batch failsC4 7 "2026-10-12" storeC4 5) "f1" ≠ some "processed" := by
  refine ⟨by decide, by decide, by decide⟩

/-- Witness for the amended C4 at the two-entry store. -/
theorem c4_drain_amended_witness :
    ({ file_id := "f1", action := "error", details := "boom" } : LogRow) ∈
      (process_batch failsC4 7 "2026-10-12" storeC4 5).log ∧
    pendingStatusOf (process_batch failsC4 7 "2026-10-12" storeC4 5) "f1" = some "pending" ∧
    pendingStatusOf (process_batch failsC4 7 "2026-10-12" storeC4 5) "f2" = some "processed" := by
  have h := c4_drain_amended storeC4 failsC4 7 "2026-10-12" 5 pendingRowC4a "boom"
    (by decide) (by decide) (by decide)
  exact ⟨h.1, h.2.1, h.2.2 pendingRowC4b (by decide) (by decide)⟩

/-! ### Claim C3 — terminal statuses -/

/-- Rejected suggestion row used by the C3 counterexample and witness. -/
def rowC3 : SuggestionRow :=
  { id := 1, file_id := "f1", original_name := "a.pdf", suggested_name := "b.pdf",
    document_type := "RG", employee_code := "1.0", employee_name := "Ana",
    folder_type := "01 - Documentos Pessoais", drive_id := "dr",
    confidence := mkRat 6 10, extracted_text := "", expiry_date := "",
    analyzed_at := 1, status := "rejected", approved_by := none,
    approved_at := none }

/-- Store holding one rejected (terminal) suggestion. -/
def storeC3 : Store :=
  { pending := [], nextPendingId := 1, suggestions := [rowC3],
    nextSuggestionId := 2, cache := [], log := [] }

/-- Counterexample to C3: `approve_suggestion` moves a suggestion out of the
terminal status `rejected` into `approved`. -/
theorem c3_terminal_counterexample :
    suggestionStatusOf storeC3 1 = some "rejected" ∧
    suggestionStatusOf (approve_suggestion storeC3 1 "admin" 5).1 1 = some "approved" := by
  refine ⟨by decide, by decide⟩

/-- After a keyed `UPDATE ... WHERE id = sid` that preserves ids, `find?` by
that id returns the updated image of some row that matched the id. -/
lemma find?_after_keyed_update (l : List SuggestionRow) (sid : Nat)
    (g : SuggestionRow → SuggestionRow) (hgid : ∀ x, (g x).id = x.id)
    (hex : ∃ x ∈ l, x.id = sid) :
    ∃ r0, r0.id = sid ∧
      (l.map (fun x => if x.id == sid then g x else x)).find? (fun x => x.id == sid) =
        some (g r0) := by
  have hrw := find?_map_of_pred_eq l (fun x => x.id == sid)
    (fun x => if x.id == sid then g x else x) (fun x => by
      show ((if (x.id == sid) = true then g x else x).id == sid) = (x.id == sid)
      by_cases hx : (x.id == sid) = true
      · rw [if_pos hx, hgid]
      · rw [if_neg hx])
  obtain ⟨x, hx, hxid⟩ := hex
  have hex2 : (l.find? (fun y => y.id == sid)).isSome :=
    List.find?_isSome.2 ⟨x, hx, by simpa using hxid⟩
  obtain ⟨r0, hr0⟩ := Option.isSome_iff_exists.1 hex2
  have hp0 := List.find?_some hr0
  have hp0' : r0.id = sid := by simpa using hp0
  refine ⟨r0, hp0', ?_⟩
  rw [hrw, hr0]
  show some (if (r0.id == sid) = true then g r0 else r0) = some (g r0)
  rw [if_pos (by simpa using hp0')]

/-- Amended C3: the three status-updating store operations guard nothing —
for a suggestion row in a terminal status (`applied`, `failed` or `rejected`),
`approve_suggestion` still sets `approved`, `reject_suggestion` still sets
`rejected`, and `update_suggestion_status` sets whatever status is passed. -/
theorem c3_terminal_amended (st : Store) (r : SuggestionRow) (sid : Nat)
    (approver : String) (now : Nat) (snew : String)
    (hr : r ∈ st.suggestions) (hid : r.id = sid)
    (hterm : r.status = "applied" ∨ r.status = "failed" ∨ r.status = "rejected") :
    suggestionStatusOf (approve_suggestion st sid approver now).1 sid = some "approved" ∧
    suggestionStatusOf (reject_suggestion st sid).1 sid = some "rejected" ∧
    suggestionStatusOf (update_suggestion_status st sid snew).1 sid = some snew := by
  refine ⟨?_, ?_, ?_⟩
  · obtain ⟨r0, hp0, heq⟩ := find?_after_keyed_update st.suggestions sid
      (fun x => { x with status := "approved", approved_by := some approver, approved_at := some now })
      (fun _ => rfl) ⟨r, hr, hid⟩
    unfold suggestionStatusOf approve_suggestion
    dsimp only
    rw [heq]
    rfl
  · obtain ⟨r0, hp0, heq⟩ := find?_after_keyed_update st.suggestions sid
      (fun x => { x with status := "rejected" }) (fun _ => rfl) ⟨r, hr, hid⟩
    unfold suggestionStatusOf reject_suggestion
    dsimp only
    rw [heq]
    rfl
  · obtain ⟨r0, hp0, heq⟩ := find?_after_keyed_update st.suggestions sid
      (fun x => { x with status := snew }) (fun _ => rfl) ⟨r, hr, hid⟩
    unfold suggestionStatusOf update_suggestion_status
    dsimp only
    rw [heq]
    rfl

/-- Witness for the amended C3 at the rejected row of `storeC3`. -/
theorem c3_terminal_amended_witness :
    suggestionStatusOf (approve_suggestion storeC3 1 "admin" 5).1 1 = some "approved" ∧
    suggestionStatusOf (reject_suggestion storeC3 1).1 1 = some "rejected" ∧
    suggestionStatusOf (update_suggestion_status storeC3 1 "pending").1 1 = some "pending" :=
  c3_terminal_amended storeC3 rowC3 1 "admin" 5 "pending" (by decide) rfl
    (Or.inr (Or.inr rfl))

/-! ### Claim C6 — cache skip law -/

/-- Processed pending row left over from an earlier pass, used by the C6
counterexample. -/
def pendingRowC6 : PendingRow :=
  { id := 1, file_id := "f1", file_name := "a.pdf", employee_code := "1.0",
    employee_name := "Ana", folder_type := "01", drive_id := "dr", added_at := 1,
    status := "processed" }

/-- Cache row storing modified time `t1`, used by the C6 counterexample. -/
def cacheRowC6 : CacheRow :=
  { file_id := "f1", file_name := "a.pdf", modified_time := some "t1",
    last_analyzed := 1, needs_rename := false, employee_code := some "1.0",
    folder_type := some "01" }

/-- Store in which file `f1` was analyzed before: a processed pending row
remains and a cache row stores `t1`. -/
def storeC6 : Store :=
  { pending := [pendingRowC6], nextPendingId := 2, suggestions := [],
    nextSuggestionId := 1, cache := [cacheRowC6], log := [] }

/-- The same file re-listed with a changed modified time `t2`. -/
def fileC6 : FileDesc := { id := "f1", name := "a.pdf", modifiedTime := some "t2" }

/-- Counterexample to C6: the cache row exists, the supplied non-empty
modified time `t2` differs from the stored `t1`, so `is_already_analyzed` is
false — yet the scan pass creates no new pending entry (`INSERT OR IGNORE`
hits the left-over row) and the store is left entirely unchanged. -/
theorem c6_cache_skip_counterexample :
    is_already_analyzed storeC6 "f1" "t2" = false ∧
    scan_file storeC6 fileC6 "1.0" "Ana" "01" "dr" 9 = storeC6 := by
  refine ⟨by decide, by decide⟩

/-- Amended C6: a cached file is skipped with the store untouched; a changed
non-empty modified time makes `is_already_analyzed` false and leads to
`add_to_queue` — which creates a new pending entry only when no pending row
(of any status) exists for the `file_id`, and otherwise changes nothing. -/
theorem c6_cache_skip_amended :
    (∀ (st : Store) (f : FileDesc) ec en ft did now,
        is_already_analyzed st f.id (f.modifiedTime.getD "") = true →
        scan_file st f ec en ft did now = st) ∧
    (∀ (st : Store) (fid mt : String) (row : CacheRow),
        st.cache.find? (fun r => r.file_id == fid) = some row → mt ≠ "" →
        row.modified_time ≠ some mt → is_already_analyzed st fid mt = false) ∧
    (∀ (st : Store) (f : FileDesc) ec en ft did now,
        is_already_analyzed st f.id (f.modifiedTime.getD "") = false →
        (∀ r ∈ st.pending, r.file_id ≠ f.id) →
        (scan_file st f ec en ft did now).pending = st.pending ++
          [{ id := st.nextPendingId, file_id := f.id, file_name := f.name,
             employee_code := ec, employee_name := en, folder_type := ft,
             drive_id := did, added_at := now, status := "pending" }]) ∧
    (∀ (st : Store) (f : FileDesc) ec en ft did now,
        is_already_analyzed st f.id (f.modifiedTime.getD "") = false →
        (∃ r ∈ st.pending, r.file_id = f.id) →
        scan_file st f ec en ft did now = st) := by
  have hscan : ∀ (st : Store) (f : FileDesc) ec en ft did now,
      scan_file st f ec en ft did now =
        if is_already_analyzed st f.id (f.modifiedTime.getD "") then st
        else (add_to_queue st f.id f.name ec en ft did now).1 :=
    fun _ _ _ _ _ _ _ => rfl
  refine ⟨?_, ?_, ?_, ?_⟩
  · intro st f ec en ft did now h
    rw [hscan, h]
    rfl
  · intro st fid mt row hrow hmt hne
    unfold is_already_analyzed
    rw [hrow]
    have hc : (mt != "" && row.modified_time != some mt) = true := by
      simp [hmt, hne]
    simp [hc]
  · intro st f ec en ft did now h hfree
    have hany : st.pending.any (fun r => r.file_id == f.id) = false := by
      simp only [List.any_eq_false]
      intro r hr
      simpa using hfree r hr
    rw [hscan, h]
    show (if False then st else (add_to_queue st f.id f.name ec en ft did now).1).pending = _
    rw [if_neg (fun hf => hf)]
    unfold add_to_queue
    rw [hany]
    rfl
  · intro st f ec en ft did now h hex
    obtain ⟨r, hr, hrid⟩ := hex
    have hany : st.pending.any (fun r => r.file_id == f.id) = true :=
      List.any_eq_true.2 ⟨r, hr, by simpa using hrid⟩
    rw [hscan, h]
    show (if False then st else (add_to_queue st f.id f.name ec en ft did now).1) = st
    rw [if_neg (fun hf => hf)]
    unfold add_to_queue
    rw [hany]
    rfl

/-- Witness for the amended C6: skip on cache hit (via `storeC10`), miss on a
changed time, ignored re-insert on `storeC6`, and a genuine insert on a store
without a pending row. -/
theorem c6_cache_skip_amended_witness :
    scan_file storeC10 { id := "f1", name := "a.pdf", modifiedTime := none }
      "1.0" "Ana" "01" "dr" 9 = storeC10 ∧
    is_already_analyzed storeC6 "f1" "t2" = false ∧
    scan_file storeC6 fileC6 "1.0" "Ana" "01" "dr" 9 = storeC6 ∧
    (scan_file emptyStore { id := "f9", name := "n.pdf", modifiedTime := some "t" }
      "1.0" "Ana" "01" "dr" 4).pending = emptyStore.pending ++
      [{ id := emptyStore.nextPendingId, file_id := "f9", file_name := "n.pdf",
         employee_code := "1.0", employee_name := "Ana", folder_type := "01",
         drive_id := "dr", added_at := 4, status := "pending" }] := by
  refine ⟨c6_cache_skip_amended.1 storeC10 _ "1.0" "Ana" "01" "dr" 9 (by decide),
    c6_cache_skip_amended.2.1 storeC6 "f1" "t2" cacheRowC6 (by decide) (by decide) (by decide),
    c6_cache_skip_amended.2.2.2 storeC6 fileC6 "1.0" "Ana" "01" "dr" 9 (by decide)
      ⟨pendingRowC6, by decide, by decide⟩,
    c6_cache_skip_amended.2.2.1 emptyStore _ "1.0" "Ana" "01" "dr" 4 (by decide)
      (by intro r hr; cases hr)⟩
